import Mathlib

/-!
Shallow embedding of the per-account collection engine of
prometheus-imap-exporter (collector.go, config.go).  Remote-server
behaviour is abstracted as an oracle (the `Server` structure); the
embedding follows the source control flow statement by statement, in
per-goroutine program order, sequentialised in account order.  The
claims settled here are insensitive to the cross-account interleaving,
except where a counterexample notes the schedule it exhibits.
-/

/-- Metric samples sent on the collection channel, one constructor per
metric family of collector.go: mailbox_ok (labels server, user), total and
unread_total (labels server, user, mailbox), and the fetch_total counter
samples emitted by res.Collect (labels host, result).  Every value this
program emits is a small non-negative integral count, so float64 gauge and
counter values are modelled as Nat. -/
inductive Sample where
  | mailboxOk (server user : String) (value : Nat)
  | total (server user mailbox : String) (value : Nat)
  | unreadTotal (server user mailbox : String) (value : Nat)
  | fetchCounter (host result : String) (value : Nat)
deriving DecidableEq, Repr

/-- Host (server) label carried by a sample. -/
def sampleHost : Sample → String
  | .mailboxOk h _ _ => h
  | .total h _ _ _ => h
  | .unreadTotal h _ _ _ => h
  | .fetchCounter h _ _ => h

/-- Errors returned by the session (collect, collector.go lines 107-145):
dial failure (line 110), login failure (line 115), mailbox-list failure
(line 129).  No constructor for a status failure exists because the source
never returns one (see the doc of statusStep). -/
inductive CollectError where
  | dialError (host : String)
  | loginError (host : String)
  | listError (host : String)
deriving DecidableEq, Repr

/-- Per-account state built by NewCollector (collector.go lines 200-207):
the configured connect timeout (held by the dialer), the host label, the
credentials and the mailbox filter. -/
structure ImapMetrics where
  timeout : Nat
  host : String
  user : String
  password : String
  filter : String

/-- Oracle for one remote IMAP server's replies during one session.
dialOk is a function of the connect timeout (the net.Dialer timeout is the
only timeout the source passes to any operation); list maps the filter to
the entries the LIST producer streams plus whether the producer finally
reports success; status maps a mailbox name to some (messages, unseen) or
none on a STATUS failure; logoutOk is the LOGOUT outcome. -/
structure Server where
  dialOk : Nat → Bool
  loginOk : Bool
  list : String → List String × Bool
  status : String → Option (Nat × Nat)
  logoutOk : Bool

/-- Translation of errorToPromResult (collector.go lines 62-67): 1 for a
nil error, 0 otherwise. -/
def errorToPromResult : Option CollectError → Nat
  | none => 1
  | some _ => 0

/-- Translation of errorToString (collector.go lines 69-74): "ok" for a
nil error, "ko" otherwise. -/
def errorToString : Option CollectError → String
  | none => "ok"
  | some _ => "ko"

/-- Result of one account session: the total/unread_total samples sent on
the channel, the error collect returns, whether the deferred disconnect
(logout then unconditional Terminate) ran, and the log lines produced. -/
structure CollectRun where
  samples : List Sample
  result : Option CollectError
  closingRan : Bool
  logs : List String
deriving DecidableEq, Repr

/-- Translation of one iteration of the status loop (collector.go lines
132-143).  The source writes mbox, err := c.Status(...): this declares a
loop-local err that shadows the function-level err from the dial, so the
error built on line 135 is dropped at the end of the iteration and never
reaches the return on line 144.  On failure the client library returns a
nil status pointer whose Messages/Unseen fields the source still reads;
those reads are modelled as zero (the spec, section 9, describes them as
zero-valued).  Both samples are emitted unconditionally, labelled with the
listed name m.Name. -/
def statusStep (status : String → Option (Nat × Nat)) (host user n : String) : List Sample :=
  let mbox := (status n).getD (0, 0)
  [Sample.total host user n mbox.1, Sample.unreadTotal host user n mbox.2]

/-- Status loop over the drained mailbox list, in enumeration order. -/
def statusSamples (status : String → Option (Nat × Nat)) (host user : String) :
    List String → List Sample
  | [] => []
  | n :: rest => statusStep status host user n ++ statusSamples status host user rest

/-- Translation of the session body, collect (collector.go lines 107-145).
Stage order is dial, deferred disconnect registration, login, list
(producer streamed into mailboxesList, then the producer's error checked),
status loop, return of the function-level err — which is nil whenever
dial, login and list succeeded, the status-loop errors being shadowed.
On a dial failure the function returns before the defer on line 112 is
registered, so closingRan is false on that path and true on every other
path. -/
def collect (server : Server) (i : ImapMetrics) : CollectRun :=
  if server.dialOk i.timeout then
    let closingLogs := if server.logoutOk then [] else ["Could not logout:"]
    if server.loginOk then
      let drained := server.list i.filter
      if drained.2 then
        { samples := statusSamples server.status i.host i.user drained.1
          result := none
          closingRan := true
          logs := closingLogs }
      else
        { samples := [], result := some (.listError i.host)
          closingRan := true, logs := closingLogs }
    else
      { samples := [], result := some (.loginError i.host)
        closingRan := true, logs := closingLogs }
  else
    { samples := [], result := some (.dialError i.host)
      closingRan := false, logs := [] }

/-- Process-wide fetch_total counter state, keyed by (host, result). -/
abbrev Counter := String → String → Nat

/-- One Inc on the child with the given label values (collector.go line 94). -/
def Counter.inc (c : Counter) (host result : String) : Counter :=
  fun h r => if h = host ∧ r = result then c h r + 1 else c h r

/-- Counter state created once by NewCollector (collector.go lines 168-175):
a fresh CounterVec, every child starting at 0. -/
def newCollectorCounter : Counter := fun _ _ => 0

/-- Translation of the goroutine body of Collect (collector.go lines
86-98) for one account: run the session, send exactly one mailbox_ok
sample, increment the (host, result) counter child once and send its
current value as a sample. -/
def accountRun (c : Counter) (p : ImapMetrics × Server) : List Sample × Counter :=
  let run := collect p.2 p.1
  let res := errorToString run.result
  let c' := c.inc p.1.host res
  (run.samples ++
      [Sample.mailboxOk p.1.host p.1.user (errorToPromResult run.result),
       Sample.fetchCounter p.1.host res (c' p.1.host res)],
   c')

/-- Translation of the orchestrator Collect (collector.go lines 83-105),
sequentialised in account order (one admissible schedule of the
goroutines; each goroutine's own sends are in program order).  The session
errors are logged, never raised. -/
def Collect (c : Counter) : List (ImapMetrics × Server) → List Sample × Counter
  | [] => ([], c)
  | p :: rest =>
    let first := accountRun c p
    let tail := Collect first.2 rest
    (first.1 ++ tail.1, tail.2)

/-- Successive scrapes within one process lifetime: the counter state
returned by each Collect call is the input of the next one (the CounterVec
is created once in NewCollector and never reset). -/
def scrapeSeq (c : Counter) : List (List (ImapMetrics × Server)) → Counter
  | [] => c
  | es :: rest => scrapeSeq (Collect c es).2 rest

/-- TLS client configuration as far as this program sets it: the
InsecureSkipVerify flag and, when a root pool was built, the PEM blob it
was built from (config.go lines 91-103). -/
structure TLSConfigModel where
  insecureSkipVerify : Bool
  rootCAs : Option String
deriving DecidableEq, Repr

/-- One decoded account entry of the JSON configuration together with the
components of its already-parsed URL (config.go lines 26-31 and the
net/url fields read by NewConfig). -/
structure InternalAccount where
  filter : String
  skipTLSValidation : Bool
  pem : String
  urlScheme : String
  urlHost : String
  urlHasUser : Bool
  urlOpaque : String
  urlPath : String
  urlRawQuery : String
  urlFragment : String
deriving DecidableEq, Repr

/-- Validated account produced by NewConfig: filter after defaulting, TLS
policy, scheme, and the URL host after port defaulting (the hostport later
handed to the dialers). -/
structure ConfigAccount where
  filter : String
  tlsConfig : Option TLSConfigModel
  scheme : String
  host : String
deriving DecidableEq, Repr

/-- Go's strings.Contains for a single-character needle, as used on
config.go line 76; defined over the character list so that concrete
instances evaluate inside the kernel. -/
def stringContains (s : String) (c : Char) : Bool := s.data.contains c

/-- Translation of the TLS block of NewConfig (config.go lines 91-103).
pemParses is the oracle for AppendCertsFromPEM; the outer none is the
log.Fatalf path for an unparseable root certificate.  When
skip_tls_validation is set the pem branch is the untaken else-if, so the
PEM is neither parsed nor stored. -/
def tlsOfAccount (a : InternalAccount) (pemParses : Bool) : Option (Option TLSConfigModel) :=
  if a.skipTLSValidation ∨ a.pem ≠ "" then
    if a.skipTLSValidation then some (some ⟨true, none⟩)
    else if pemParses then some (some ⟨false, some a.pem⟩) else none
  else some none

/-- Translation of the per-account body of NewConfig (config.go lines
58-105): filter defaulting, scheme check, port defaulting when the host
contains no colon, user check, opaque/path/query/fragment check, TLS
block.  Every log.Fatal path is none. -/
def newConfigAccount (a : InternalAccount) (pemParses : Bool) : Option ConfigAccount :=
  let filter := if a.filter = "" then "*" else a.filter
  if a.urlScheme ≠ "imap" ∧ a.urlScheme ≠ "imaps" then none
  else
    let host :=
      if stringContains a.urlHost ':' = false then
        if a.urlScheme = "imaps" then a.urlHost ++ ":993" else a.urlHost ++ ":143"
      else a.urlHost
    if a.urlHasUser = false then none
    else if a.urlOpaque ≠ "" ∨ a.urlPath ≠ "" ∨ a.urlRawQuery ≠ "" ∨ a.urlFragment ≠ "" then none
    else
      match tlsOfAccount a pemParses with
      | none => none
      | some tc => some { filter := filter, tlsConfig := tc, scheme := a.urlScheme, host := host }

/-- Helper for hostHasPort, scanning the reversed character list of a URL
host: a port is a trailing run of one or more digits after a colon, and a
host ending in a bracket (an IPv6 literal) carries no port. -/
def hostHasPortAux : Bool → List Char → Bool
  | _, [] => false
  | seenDigit, c :: rest =>
    if c = ':' then seenDigit
    else if c = ']' then false
    else if c.isDigit then hostHasPortAux true rest
    else false

/-- Spec-side definition for claim C7, following the spec's words "whose
URL host contains no port": whether the host component carries an explicit
port, in the net/url reading (digits after a colon that comes after any
closing bracket of an IPv6 literal).  It exists only to be compared with
the source's colon-containment test. -/
def hostHasPort (h : String) : Bool := hostHasPortAux false h.data.reverse

/-- Early-failure predicate for claim C3: the session fails at the
connection, authentication or enumeration stage. -/
def failsEarly (s : Server) (i : ImapMetrics) : Bool :=
  !s.dialOk i.timeout || !s.loginOk || !(s.list i.filter).2

/-! Concrete accounts and server oracles used by the evaluation, witness
and counterexample theorems below. -/

/-- Example account with the default filter. -/
def mEx : ImapMetrics :=
  { timeout := 5, host := "imap.example.com", user := "u", password := "p", filter := "*" }

/-- Second example account. -/
def mW4 : ImapMetrics :=
  { timeout := 5, host := "imap.example.org", user := "alice", password := "pw", filter := "*" }

/-- Server whose STATUS fails for INBOX but succeeds for Sent. -/
def sStatusFail : Server :=
  { dialOk := fun _ => true, loginOk := true
    list := fun _ => (["INBOX", "Sent"], true)
    status := fun n => if n = "Sent" then some (5, 1) else none
    logoutOk := true }

/-- Server that answers every stage successfully with zero mailboxes. -/
def sEmptyList : Server :=
  { dialOk := fun _ => true, loginOk := true, list := fun _ => ([], true)
    status := fun _ => none, logoutOk := true }

/-- Server whose LIST producer streams two entries and then fails. -/
def sListFail : Server :=
  { dialOk := fun _ => true, loginOk := true
    list := fun _ => (["INBOX", "Archive"], false)
    status := fun _ => some (1, 1), logoutOk := true }

/-- Unreachable server: every dial fails, whatever the timeout. -/
def sNoDial : Server :=
  { dialOk := fun _ => false, loginOk := true, list := fun _ => ([], true)
    status := fun _ => none, logoutOk := true }

/-- IPv6 loopback account: its URL host carries no port, yet it contains
colons, so NewConfig's colon test skips the port defaulting. -/
def aV6 : InternalAccount :=
  { filter := "", skipTLSValidation := false, pem := "", urlScheme := "imaps"
    urlHost := "[::1]", urlHasUser := true, urlOpaque := "", urlPath := ""
    urlRawQuery := "", urlFragment := "" }

/-- Account enabling skip_tls_validation while also supplying a (garbage)
pem blob. -/
def aBoth : InternalAccount :=
  { filter := "f", skipTLSValidation := true, pem := "GARBAGE", urlScheme := "imaps"
    urlHost := "mail.example.net", urlHasUser := true, urlOpaque := "", urlPath := ""
    urlRawQuery := "", urlFragment := "" }

/-- Validated form of aBoth. -/
def acctBoth : ConfigAccount :=
  { filter := "f", tlsConfig := some { insecureSkipVerify := true, rootCAs := none }
    scheme := "imaps", host := "mail.example.net:993" }

/-- Predicate selecting the mailbox_ok samples carrying the given
(server, user) labels. -/
def isMailboxOkFor (h u : String) : Sample → Bool
  | .mailboxOk h' u' _ => h' == h && u' == u
  | _ => false

/-- Predicate selecting the samples whose host label is h. -/
def hostIs (h : String) (x : Sample) : Bool := sampleHost x == h

/-- Predicate selecting the gauge samples (mailbox_ok, total, unread_total),
excluding the cumulative fetch_total counter samples. -/
def notFetchCounter : Sample → Bool
  | .fetchCounter _ _ _ => false
  | _ => true

/-- First account on a shared host. -/
def mA : ImapMetrics :=
  { timeout := 1, host := "shared.example", user := "alice", password := "pa", filter := "*" }

/-- Second account on the same shared host. -/
def mB : ImapMetrics :=
  { timeout := 1, host := "shared.example", user := "bob", password := "pb", filter := "*" }

/-- Claim C1 (status: code_bug): evaluation of the source behaviour at the
failing input.  Account mEx, server sStatusFail whose STATUS for INBOX
fails mid-list.  The claim (and the spec contract fixed in section 4.2)
requires a StatusError outcome and no samples after the failure point; the
code instead returns a nil error — the status error lands in a loop-local
err that shadows the function-level one — and keeps emitting samples for
INBOX (zero-valued) and for the later mailbox Sent. -/
theorem claimC1_code_eval :
    (collect sStatusFail mEx).result = none
    ∧ (collect sStatusFail mEx).samples =
        [Sample.total "imap.example.com" "u" "INBOX" 0,
         Sample.unreadTotal "imap.example.com" "u" "INBOX" 0,
         Sample.total "imap.example.com" "u" "Sent" 5,
         Sample.unreadTotal "imap.example.com" "u" "Sent" 1] := by
  constructor <;> rfl

/-- Claim C4: when dial and login succeed and the enumeration matches zero
mailboxes, collect returns a success outcome, no total/unread_total sample
is emitted, and the goroutine body emits the mailbox_ok sample with value
1 followed by the incremented ok counter sample. -/
theorem claimC4 (c : Counter) (s : Server) (i : ImapMetrics)
    (hd : s.dialOk i.timeout = true) (hl : s.loginOk = true)
    (he : s.list i.filter = ([], true)) :
    (collect s i).result = none ∧ (collect s i).samples = []
    ∧ (accountRun c (i, s)).1
      = [Sample.mailboxOk i.host i.user 1,
         Sample.fetchCounter i.host "ok" (c i.host "ok" + 1)] := by
  have hc : collect s i
      = { samples := [], result := none, closingRan := true
          logs := if s.logoutOk then [] else ["Could not logout:"] } := by
    unfold collect
    rw [hd, hl, he]
    simp [statusSamples]
  refine ⟨by rw [hc], by rw [hc], ?_⟩
  simp only [accountRun, hc]
  simp [errorToString, errorToPromResult, Counter.inc]

/-- Witness for claim C4 at the concrete account mW4 and server sEmptyList. -/
theorem claimC4_witness :
    (collect sEmptyList mW4).result = none ∧ (collect sEmptyList mW4).samples = []
    ∧ (accountRun newCollectorCounter (mW4, sEmptyList)).1
      = [Sample.mailboxOk "imap.example.org" "alice" 1,
         Sample.fetchCounter "imap.example.org" "ok"
           (newCollectorCounter "imap.example.org" "ok" + 1)] :=
  claimC4 newCollectorCounter sEmptyList mW4 rfl rfl rfl

/-- Claim C5: when the LIST producer signals failure after streaming
entries, the drained partial list is discarded, collect fails with the
enumerate error, and no total/unread_total sample is emitted. -/
theorem claimC5 (s : Server) (i : ImapMetrics) (names : List String)
    (hd : s.dialOk i.timeout = true) (hl : s.loginOk = true)
    (he : s.list i.filter = (names, false)) :
    (collect s i).result = some (CollectError.listError i.host)
    ∧ (collect s i).samples = [] := by
  unfold collect
  rw [hd, hl, he]
  simp

/-- Witness for claim C5: two entries already streamed, then the producer
fails; both are discarded. -/
theorem claimC5_witness :
    (collect sListFail mW4).result = some (CollectError.listError "imap.example.org")
    ∧ (collect sListFail mW4).samples = [] :=
  claimC5 sListFail mW4 ["INBOX", "Archive"] rfl rfl rfl

/-- Claim C6 counterexample: on the unreachable-server (dial-failure) path
the source returns on line 110, before the deferred disconnect is
registered on line 112, so the Closing stage does not run — refuting the
claim that Closing runs on every exit path including dial failure. -/
theorem claimC6_counterexample : (collect sNoDial mEx).closingRan = false := rfl

/-- Claim C6 as amended: on every exit path on which the connection was
established (authentication failure and enumeration failure included) the
deferred Closing stage runs, and the logout outcome never changes the
samples or the Collection Outcome determined by the earlier stages. -/
theorem claimC6 (s : Server) (i : ImapMetrics) (b : Bool)
    (hd : s.dialOk i.timeout = true) :
    (collect s i).closingRan = true
    ∧ (collect { s with logoutOk := b } i).result = (collect s i).result
    ∧ (collect { s with logoutOk := b } i).samples = (collect s i).samples := by
  unfold collect
  cases hl : s.loginOk <;> cases hlist : (s.list i.filter).2 <;>
    simp [hd, hl, hlist]

/-- Witness for claim C6: a server that fails authentication, with the two
logout outcomes. -/
theorem claimC6_witness :
    (collect { sEmptyList with loginOk := false } mW4).closingRan = true
    ∧ (collect { { sEmptyList with loginOk := false } with logoutOk := false } mW4).result
      = (collect { sEmptyList with loginOk := false } mW4).result
    ∧ (collect { { sEmptyList with loginOk := false } with logoutOk := false } mW4).samples
      = (collect { sEmptyList with loginOk := false } mW4).samples :=
  claimC6 { sEmptyList with loginOk := false } mW4 false rfl

/-- Claim C7 counterexample: the host of aV6 contains no port, the scheme
is imaps, yet NewConfig leaves the host unchanged instead of appending
port 993, because the source tests colon containment, which an IPv6
literal host satisfies without carrying a port. -/
theorem claimC7_counterexample :
    hostHasPort "[::1]" = false
    ∧ (newConfigAccount aV6 true).map ConfigAccount.host = some "[::1]"
    ∧ ("[::1]" : String) ≠ "[::1]" ++ ":993" := by
  refine ⟨by decide, by decide, by decide⟩

/-- Claim C7 as amended: for every account NewConfig accepts, when the URL
host contains no colon the constructed host-port is the host with port 993
appended for scheme imaps and 143 otherwise, a host containing a colon is
kept unchanged, and an absent or empty filter field becomes the glob
star while a non-empty filter is kept. -/
theorem claimC7 (a : InternalAccount) (p : Bool) (acct : ConfigAccount)
    (h : newConfigAccount a p = some acct) :
    acct.host = (if stringContains a.urlHost ':' = false
        then a.urlHost ++ (if a.urlScheme = "imaps" then ":993" else ":143")
        else a.urlHost)
    ∧ acct.filter = (if a.filter = "" then "*" else a.filter) := by
  simp only [newConfigAccount] at h
  split at h
  · exact Option.noConfusion h
  · split at h
    · exact Option.noConfusion h
    · split at h
      · exact Option.noConfusion h
      · split at h
        · exact Option.noConfusion h
        · injection h with h
          subst h
          refine ⟨?_, rfl⟩
          dsimp only
          split
          · split <;> rfl
          · rfl

/-- Witness for claim C7 at a plain host with no colon. -/
theorem claimC7_witness :
    ({ filter := "*", tlsConfig := none, scheme := "imaps"
       host := "imap.example.com:993" : ConfigAccount }).host
      = (if stringContains "imap.example.com" ':' = false
          then "imap.example.com" ++ (if ("imaps" : String) = "imaps" then ":993" else ":143")
          else "imap.example.com")
    ∧ ({ filter := "*", tlsConfig := none, scheme := "imaps"
         host := "imap.example.com:993" : ConfigAccount }).filter
      = (if ("" : String) = "" then "*" else "") :=
  claimC7
    { filter := "", skipTLSValidation := false, pem := "", urlScheme := "imaps"
      urlHost := "imap.example.com", urlHasUser := true, urlOpaque := ""
      urlPath := "", urlRawQuery := "", urlFragment := "" }
    true
    { filter := "*", tlsConfig := none, scheme := "imaps", host := "imap.example.com:993" }
    (by decide)

/-- Claim C8: the configured timeout reaches only the dial
(connection-establishment) step — in the embedding login, list and status
are not functions of the timeout, mirroring the source where the
net.Dialer timeout is the only place the configuration's timeout is used.
Consequently two sessions for the same account differing only in their
timeout behave identically whenever the dial outcome is the same. -/
theorem claimC8 (s : Server) (host user password filter : String) (t1 t2 : Nat)
    (h : s.dialOk t1 = s.dialOk t2) :
    collect s { timeout := t1, host := host, user := user
                password := password, filter := filter }
      = collect s { timeout := t2, host := host, user := user
                    password := password, filter := filter } := by
  simp only [collect, h]

/-- Witness for claim C8 at two distinct concrete timeouts. -/
theorem claimC8_witness :
    collect sEmptyList { timeout := 0, host := "imap.example.org", user := "alice"
                         password := "pw", filter := "*" }
      = collect sEmptyList { timeout := 7, host := "imap.example.org", user := "alice"
                             password := "pw", filter := "*" } :=
  claimC8 sEmptyList "imap.example.org" "alice" "pw" "*" 0 7 rfl

/-- Helper: when skip_tls_validation is set, the TLS block yields the
skip-verify policy whatever the PEM parse outcome would have been. -/
theorem tlsOfAccount_skip (a : InternalAccount) (p : Bool)
    (h : a.skipTLSValidation = true) :
    tlsOfAccount a p = some (some ⟨true, none⟩) := by
  simp [tlsOfAccount, h]

/-- Claim C10: for an account that sets both skip_tls_validation and a
non-empty pem, the trust policy NewConfig builds is skip-verification with
no root pool, and the result does not depend on whether the PEM would
parse — the supplied certificate is ignored entirely. -/
theorem claimC10 (a : InternalAccount) (p1 p2 : Bool) (acct : ConfigAccount)
    (hskip : a.skipTLSValidation = true) (hpem : a.pem ≠ "")
    (h : newConfigAccount a p1 = some acct) :
    acct.tlsConfig = some { insecureSkipVerify := true, rootCAs := none }
    ∧ newConfigAccount a p1 = newConfigAccount a p2 := by
  constructor
  · simp only [newConfigAccount, tlsOfAccount_skip a p1 hskip] at h
    split at h
    · exact Option.noConfusion h
    · split at h
      · exact Option.noConfusion h
      · split at h
        · exact Option.noConfusion h
        · injection h with h
          subst h
          rfl
  · simp only [newConfigAccount, tlsOfAccount_skip a p1 hskip, tlsOfAccount_skip a p2 hskip]

/-- Witness for claim C10: the garbage pem is ignored, even under a
failing parse oracle. -/
theorem claimC10_witness :
    acctBoth.tlsConfig = some { insecureSkipVerify := true, rootCAs := none }
    ∧ newConfigAccount aBoth false = newConfigAccount aBoth true :=
  claimC10 aBoth false true acctBoth rfl (by decide) (by decide)

/-- Helper: errorToString only ever produces the two result labels. -/
theorem errorToString_ok_or_ko (e : Option CollectError) :
    errorToString e = "ok" ∨ errorToString e = "ko" := by
  cases e <;> simp [errorToString]

/-- Helper: pointwise view of a counter increment. -/
theorem Counter.inc_apply (c : Counter) (hi res h r : String) :
    c.inc hi res h r = if h = hi ∧ r = res then c h r + 1 else c h r := rfl

/-- Helper: the status loop emits no mailbox_ok sample. -/
theorem statusSamples_countP_mailboxOk (st : String → Option (Nat × Nat))
    (host user h u : String) (l : List String) :
    (statusSamples st host user l).countP (isMailboxOkFor h u) = 0 := by
  induction l with
  | nil => rfl
  | cons n rest ih =>
    simp [statusSamples, statusStep, List.countP_append, List.countP_cons, isMailboxOkFor, ih]

/-- Helper: a session emits no mailbox_ok sample itself. -/
theorem collect_countP_mailboxOk (s : Server) (i : ImapMetrics) (h u : String) :
    (collect s i).samples.countP (isMailboxOkFor h u) = 0 := by
  cases hd : s.dialOk i.timeout <;> cases hl : s.loginOk <;>
    cases hdr : (s.list i.filter).2 <;>
      simp [collect, hd, hl, hdr, statusSamples_countP_mailboxOk]

/-- Helper: counting mailbox_ok samples over a whole scrape. -/
theorem Collect_countP_mailboxOk (accounts : List (ImapMetrics × Server))
    (c : Counter) (h u : String) :
    (Collect c accounts).1.countP (isMailboxOkFor h u)
      = accounts.countP (fun p => p.1.host == h && p.1.user == u) := by
  induction accounts generalizing c with
  | nil => rfl
  | cons p rest ih =>
    simp only [Collect, accountRun]
    by_cases hc : (p.1.host == h && p.1.user == u) = true <;>
      simp [List.countP_append, List.countP_cons, collect_countP_mailboxOk,
        isMailboxOkFor, ih, hc]

/-- Helper: the ok/ko pair sum grows by one under a single increment. -/
theorem counter_pair_sum (c : Counter) (hi res hq : String)
    (hres : res = "ok" ∨ res = "ko") :
    c.inc hi res hq "ok" + c.inc hi res hq "ko"
      = c hq "ok" + c hq "ko" + (if hq = hi then 1 else 0) := by
  rcases hres with rfl | rfl <;> by_cases hx : hq = hi <;>
    simp [Counter.inc, hx] <;> omega

/-- Helper: the ok/ko pair sum at a host after a scrape. -/
theorem Collect_counter_pair_sum (accounts : List (ImapMetrics × Server))
    (c : Counter) (hq : String) :
    (Collect c accounts).2 hq "ok" + (Collect c accounts).2 hq "ko"
      = c hq "ok" + c hq "ko" + accounts.countP (fun p => p.1.host == hq) := by
  induction accounts generalizing c with
  | nil => simp [Collect]
  | cons p rest ih =>
    simp only [Collect, accountRun]
    rw [ih]
    rw [counter_pair_sum _ _ _ _ (errorToString_ok_or_ko _)]
    rw [List.countP_cons]
    by_cases hx : hq = p.1.host
    · simp [hx]
      omega
    · have hb : (p.1.host == hq) = false := by
        rw [beq_eq_false_iff_ne]
        exact fun hy => hx hy.symm
      simp only [if_neg hx, hb, if_neg Bool.false_ne_true]
      omega

/-- Claim C2: in one scrape, every configured account contributes exactly
one mailbox_ok sample with its (host, user) labels — the count of such
samples equals the count of accounts carrying those labels — and exactly
one fetch_total increment lands on its host: the ok/ko pair sum for any
host grows by exactly the number of accounts configured with that host,
whatever each session's outcome and failure stage. -/
theorem claimC2 (c : Counter) (accounts : List (ImapMetrics × Server)) (h u hq : String) :
    (Collect c accounts).1.countP (isMailboxOkFor h u)
      = accounts.countP (fun p => p.1.host == h && p.1.user == u)
    ∧ (Collect c accounts).2 hq "ok" + (Collect c accounts).2 hq "ko"
      = c hq "ok" + c hq "ko" + accounts.countP (fun p => p.1.host == hq) :=
  ⟨Collect_countP_mailboxOk accounts c h u, Collect_counter_pair_sum accounts c hq⟩

/-- Helper: exact value of one counter cell after a scrape. -/
theorem Collect_counter_apply (accounts : List (ImapMetrics × Server))
    (c : Counter) (h r : String) :
    (Collect c accounts).2 h r
      = c h r + accounts.countP
          (fun p => p.1.host == h && errorToString (collect p.2 p.1).result == r) := by
  induction accounts generalizing c with
  | nil => simp [Collect]
  | cons p rest ih =>
    simp only [Collect, accountRun]
    rw [ih, List.countP_cons, Counter.inc_apply]
    by_cases hx : h = p.1.host ∧ r = errorToString (collect p.2 p.1).result
    · simp [hx.1, hx.2]
      omega
    · have hb : (p.1.host == h && errorToString (collect p.2 p.1).result == r) = false := by
        rw [Bool.and_eq_false_iff]
        by_cases h1 : p.1.host = h
        · right
          rw [beq_eq_false_iff_ne]
          exact fun hy => hx ⟨h1.symm, hy.symm⟩
        · left
          rw [beq_eq_false_iff_ne]
          exact h1
      simp only [if_neg hx, hb, if_neg Bool.false_ne_true]
      omega

/-- Helper: a scrape never decreases any counter cell. -/
theorem Collect_counter_le (accounts : List (ImapMetrics × Server))
    (c : Counter) (h r : String) :
    c h r ≤ (Collect c accounts).2 h r := by
  rw [Collect_counter_apply]
  omega

/-- Helper: scrape sequences compose by appending. -/
theorem scrapeSeq_append (ss₁ ss₂ : List (List (ImapMetrics × Server))) (c : Counter) :
    scrapeSeq c (ss₁ ++ ss₂) = scrapeSeq (scrapeSeq c ss₁) ss₂ := by
  induction ss₁ generalizing c with
  | nil => rfl
  | cons es rest ih => simp [scrapeSeq, ih]

/-- Helper: a counter cell never decreases along a sequence of scrapes. -/
theorem scrapeSeq_le (ss : List (List (ImapMetrics × Server))) (c : Counter) (h r : String) :
    c h r ≤ scrapeSeq c ss h r := by
  induction ss generalizing c with
  | nil => exact Nat.le_refl _
  | cons es rest ih =>
    exact Nat.le_trans (Collect_counter_le es c h r) (ih (Collect c es).2)

/-- Claim C9: a single scrape changes each (host, result) counter cell by
exactly one increment per account session completing with that host and
outcome kind, and the accumulated value persists: over any sequence of
further scrapes within the process lifetime (the counter state being
threaded from Collect call to Collect call, created once at construction)
no cell ever decreases. -/
theorem claimC9 (c : Counter) (es : List (ImapMetrics × Server))
    (ss₁ ss₂ : List (List (ImapMetrics × Server))) (h r : String) :
    (Collect c es).2 h r
      = c h r + es.countP
          (fun p => p.1.host == h && errorToString (collect p.2 p.1).result == r)
    ∧ scrapeSeq c ss₁ h r ≤ scrapeSeq c (ss₁ ++ ss₂) h r := by
  refine ⟨Collect_counter_apply es c h r, ?_⟩
  rw [scrapeSeq_append]
  exact scrapeSeq_le ss₂ (scrapeSeq c ss₁) h r

/-- Helper: the status loop only emits samples labelled with its own host. -/
theorem statusSamples_filter_ne (st : String → Option (Nat × Nat))
    (host user h : String) (l : List String) (hne : (host == h) = false) :
    (statusSamples st host user l).filter (hostIs h) = [] := by
  induction l with
  | nil => rfl
  | cons n rest ih =>
    simp [statusSamples, statusStep, List.filter_append, hostIs, sampleHost, hne, ih]

/-- Helper: a session only emits samples labelled with its own host. -/
theorem collect_filter_ne (s : Server) (i : ImapMetrics) (h : String)
    (hne : (i.host == h) = false) :
    (collect s i).samples.filter (hostIs h) = [] := by
  cases hd : s.dialOk i.timeout <;> cases hl : s.loginOk <;>
    cases hdr : (s.list i.filter).2 <;>
      simp [collect, hd, hl, hdr, statusSamples_filter_ne _ _ _ _ _ hne]

/-- Helper: the whole goroutine body only emits samples labelled with its
own host. -/
theorem accountRun_filter_ne (c : Counter) (p : ImapMetrics × Server) (h : String)
    (hne : (p.1.host == h) = false) :
    (accountRun c p).1.filter (hostIs h) = [] := by
  simp [accountRun, List.filter_append, collect_filter_ne _ _ _ hne, hostIs, sampleHost, hne]

/-- Helper: increments preserve pointwise agreement of two counters at a
host. -/
theorem Counter.inc_agree (c1 c2 : Counter) (hi res h : String)
    (hagree : ∀ r, c1 h r = c2 h r) (r : String) :
    c1.inc hi res h r = c2.inc hi res h r := by
  simp only [Counter.inc, hagree r]

/-- Helper: first component of the goroutine body, spelt out. -/
theorem accountRun_fst (c : Counter) (p : ImapMetrics × Server) :
    (accountRun c p).1
      = (collect p.2 p.1).samples ++
          [Sample.mailboxOk p.1.host p.1.user (errorToPromResult (collect p.2 p.1).result),
           Sample.fetchCounter p.1.host (errorToString (collect p.2 p.1).result)
             (c.inc p.1.host (errorToString (collect p.2 p.1).result) p.1.host
               (errorToString (collect p.2 p.1).result))] := rfl

/-- Helper: second component of the goroutine body, spelt out. -/
theorem accountRun_snd (c : Counter) (p : ImapMetrics × Server) :
    (accountRun c p).2 = c.inc p.1.host (errorToString (collect p.2 p.1).result) := rfl

/-- Helper: the samples a scrape emits for host h, and the counter cells
of host h, depend on the incoming counter state only through its cells for
h. -/
theorem Collect_filter_congr (accounts : List (ImapMetrics × Server))
    (c1 c2 : Counter) (h : String) (hagree : ∀ r, c1 h r = c2 h r) :
    (Collect c1 accounts).1.filter (hostIs h) = (Collect c2 accounts).1.filter (hostIs h)
    ∧ ∀ r, (Collect c1 accounts).2 h r = (Collect c2 accounts).2 h r := by
  induction accounts generalizing c1 c2 with
  | nil => exact ⟨rfl, hagree⟩
  | cons p rest ih =>
    have hinc : ∀ r,
        (c1.inc p.1.host (errorToString (collect p.2 p.1).result)) h r
          = (c2.inc p.1.host (errorToString (collect p.2 p.1).result)) h r :=
      Counter.inc_agree c1 c2 _ _ h hagree
    obtain ⟨ihs, ihc⟩ := ih _ _ hinc
    constructor
    · simp only [Collect, List.filter_append]
      rw [accountRun_snd c1 p, accountRun_snd c2 p, ihs]
      by_cases hp : (p.1.host == h) = true
      · have hph : p.1.host = h := by rwa [beq_iff_eq] at hp
        have hval := hinc (errorToString (collect p.2 p.1).result)
        rw [← hph] at hval
        rw [accountRun_fst c1 p, accountRun_fst c2 p, hval]
      · have hf : (p.1.host == h) = false := by
          cases hb : (p.1.host == h)
          · rfl
          · exact absurd hb hp
        rw [accountRun_filter_ne c1 p h hf, accountRun_filter_ne c2 p h hf]
    · simp only [Collect]
      rw [accountRun_snd c1 p, accountRun_snd c2 p]
      exact ihc

/-- Helper: a scrape over appended account lists decomposes. -/
theorem Collect_append (l1 l2 : List (ImapMetrics × Server)) (c : Counter) :
    Collect c (l1 ++ l2)
      = ((Collect c l1).1 ++ (Collect (Collect c l1).2 l2).1,
         (Collect (Collect c l1).2 l2).2) := by
  induction l1 generalizing c with
  | nil => simp [Collect]
  | cons p rest ih => simp [Collect, ih, List.append_assoc]

/-- Helper: a session that fails at the connection, authentication or
enumeration stage emits nothing and returns an error. -/
theorem collect_failsEarly (s : Server) (i : ImapMetrics)
    (hf : failsEarly s i = true) :
    (collect s i).samples = [] ∧ ∃ e, (collect s i).result = some e := by
  unfold failsEarly at hf
  cases hd : s.dialOk i.timeout <;> cases hl : s.loginOk <;>
    cases hdr : (s.list i.filter).2 <;> rw [hd, hl, hdr] at hf <;>
      simp [collect, hd, hl, hdr] <;> simp at hf

/-- Claim C3 counterexample, refuting the universal isolation clause "the
samples emitted for every other account are the same as they would be had
the failing account succeeded": accounts mA and mB share the host
shared.example; under the account-order schedule, when mA's dial fails mB
emits the cumulative sample fetch_total(shared.example, ok) = 1, but had
mA succeeded mB would emit fetch_total(shared.example, ok) = 2 — mB's
sample list (the part after mA's two samples) differs between the two
runs. -/
theorem claimC3_counterexample :
    (Collect newCollectorCounter [(mA, sNoDial), (mB, sEmptyList)]).1.drop 2
      ≠ (Collect newCollectorCounter [(mA, sEmptyList), (mB, sEmptyList)]).1.drop 2 := by
  decide

/-- Helper: the gauge samples (mailbox_ok, total, unread_total) a scrape
emits do not depend on the incoming counter state at all — only the
cumulative fetch_total sample values do. -/
theorem Collect_gauge_congr (accounts : List (ImapMetrics × Server))
    (c1 c2 : Counter) :
    (Collect c1 accounts).1.filter notFetchCounter
      = (Collect c2 accounts).1.filter notFetchCounter := by
  induction accounts generalizing c1 c2 with
  | nil => rfl
  | cons p rest ih =>
    simp only [Collect, List.filter_append]
    rw [accountRun_snd c1 p, accountRun_snd c2 p,
      ih (c1.inc p.1.host (errorToString (collect p.2 p.1).result))
        (c2.inc p.1.host (errorToString (collect p.2 p.1).result)),
      accountRun_fst c1 p, accountRun_fst c2 p]
    simp [List.filter_append, notFetchCounter]

/-- Claim C3 as amended: for an account whose connection, authentication
or enumeration fails, the session emits zero total/unread_total samples,
its mailbox_ok value is 0 and its host's ko counter cell grows by exactly
1; for any host other than the failing account's, the scrape's samples
are the same as they would be had that account's server behaved in any
other way; and every account running after the failing one — those
sharing its host included — emits the same mailbox_ok/total/unread_total
samples in both runs (the accounts running before it are untouched, their
segment being the same in both runs): only the cumulative fetch_total
sample value observed by an account sharing the failing account's host
may differ. -/
theorem claimC3 (c0 : Counter) (pre post : List (ImapMetrics × Server))
    (m : ImapMetrics) (s sGood : Server) (h : String)
    (hfail : failsEarly s m = true) (hne : h ≠ m.host) :
    (collect s m).samples = []
    ∧ errorToPromResult (collect s m).result = 0
    ∧ (accountRun c0 (m, s)).2 m.host "ko" = c0 m.host "ko" + 1
    ∧ (Collect c0 (pre ++ (m, s) :: post)).1.filter (hostIs h)
      = (Collect c0 (pre ++ (m, sGood) :: post)).1.filter (hostIs h)
    ∧ (Collect (accountRun (Collect c0 pre).2 (m, s)).2 post).1.filter notFetchCounter
      = (Collect (accountRun (Collect c0 pre).2 (m, sGood)).2 post).1.filter
          notFetchCounter := by
  obtain ⟨hs, e, he⟩ := collect_failsEarly s m hfail
  have hko : errorToString (collect s m).result = "ko" := by rw [he]; rfl
  refine ⟨hs, by rw [he]; rfl, ?_, ?_, Collect_gauge_congr post _ _⟩
  · rw [accountRun_snd, hko]
    simp [Counter.inc]
  · rw [Collect_append, Collect_append]
    simp only [List.filter_append]
    have hbf : (m.host == h) = false := by
      rw [beq_eq_false_iff_ne]
      exact fun hy => hne hy.symm
    have hcons : ∀ (sv : Server),
        Collect (Collect c0 pre).2 ((m, sv) :: post)
          = ((accountRun (Collect c0 pre).2 (m, sv)).1
              ++ (Collect (accountRun (Collect c0 pre).2 (m, sv)).2 post).1,
             (Collect (accountRun (Collect c0 pre).2 (m, sv)).2 post).2) :=
      fun sv => rfl
    rw [hcons s, hcons sGood]
    simp only [List.filter_append]
    rw [accountRun_filter_ne _ _ _ hbf, accountRun_filter_ne _ _ _ hbf]
    rw [accountRun_snd, accountRun_snd]
    have hagree : ∀ r,
        ((Collect c0 pre).2.inc m.host (errorToString (collect s m).result)) h r
          = ((Collect c0 pre).2.inc m.host (errorToString (collect sGood m).result)) h r := by
      intro r
      have hhm : ¬(h = m.host ∧ r = errorToString (collect s m).result) :=
        fun hy => hne hy.1
      have hhm' : ¬(h = m.host ∧ r = errorToString (collect sGood m).result) :=
        fun hy => hne hy.1
      rw [Counter.inc_apply, Counter.inc_apply, if_neg hhm, if_neg hhm']
    rw [(Collect_filter_congr post _ _ h hagree).1]

/-- Witness for claim C3: mA's dial fails while a second account mW4 on a
different host runs in the same scrape; had mA's server behaved like
sEmptyList instead, mW4's samples — and in particular its gauge samples —
would be unchanged. -/
theorem claimC3_witness :
    (collect sNoDial mA).samples = []
    ∧ errorToPromResult (collect sNoDial mA).result = 0
    ∧ (accountRun newCollectorCounter (mA, sNoDial)).2 "shared.example" "ko"
      = newCollectorCounter "shared.example" "ko" + 1
    ∧ (Collect newCollectorCounter ([] ++ (mA, sNoDial) :: [(mW4, sEmptyList)])).1.filter
        (hostIs "imap.example.org")
      = (Collect newCollectorCounter ([] ++ (mA, sEmptyList) :: [(mW4, sEmptyList)])).1.filter
        (hostIs "imap.example.org")
    ∧ (Collect (accountRun (Collect newCollectorCounter []).2 (mA, sNoDial)).2
          [(mW4, sEmptyList)]).1.filter notFetchCounter
      = (Collect (accountRun (Collect newCollectorCounter []).2 (mA, sEmptyList)).2
          [(mW4, sEmptyList)]).1.filter notFetchCounter :=
  claimC3 newCollectorCounter [] [(mW4, sEmptyList)] mA sNoDial sEmptyList
    "imap.example.org" rfl (by decide)
